import Mathlib

/-
Verification of the AVM1 object/value/scope engine (ruffle core, `src/core/src/avm1/`).

The Rust sources are shallowly embedded:
* `value.rs` : the `Value` enum and its numeric-coercion and abstract-equality
  algorithms (`primitive_as_number`, `coerce_to_f64`, `to_primitive_num`,
  `abstract_eq`).
* `object.rs` / `object/script_object.rs` / `object/super_object.rs` :
  the object capability operations the claims are about (`get_local`,
  `get_keys`, the virtual-setter walk in `TObject::set`, and the super-proxy
  no-ops).
* `scope.rs` : `Scope::new_closure_scope`.

Machine doubles (`f64`) are modelled by an inductive `F` that distinguishes
NaN, the two infinities, negative zero and exact finite rationals; the file
only evaluates double arithmetic at points where the result is exact, so no
rounding model is needed.  Garbage-collected heaps are modelled by a `World`
mapping numeric object ids to object data; `Object::ptr_eq` becomes id
equality.  Script executables (getters, setters, `valueOf` implementations)
are modelled as pure functions, matching the claims' hypotheses.
-/

namespace Ruffle

/-- Model of an IEEE-754 double as used by `value.rs`: NaN, the two
infinities, negative zero, and exact finite values (`rat 0` is positive
zero).  Rounding never matters for the claims below, so finite values are
kept as exact rationals. -/
inductive F : Type
  | nan : F
  | posInf : F
  | negInf : F
  | negZero : F
  | rat : ℚ → F
  deriving DecidableEq, Repr

/-- `f64::is_nan`. -/
def F.isNaN : F → Bool
  | .nan => true
  | _ => false

/-- IEEE-754 equality (`==` on `f64` in Rust): NaN is equal to nothing,
`-0.0 == 0.0`, and finite values compare exactly. -/
def F.ieeeEq : F → F → Bool
  | .nan, _ => false
  | _, .nan => false
  | .posInf, .posInf => true
  | .negInf, .negInf => true
  | .negZero, .negZero => true
  | .negZero, .rat q => decide (q = 0)
  | .rat q, .negZero => decide (q = 0)
  | .rat a, .rat b => decide (a = b)
  | _, _ => false

/-- The `Value` enum of `value.rs`.  Object references are heap ids;
`Object::ptr_eq` is id equality.  Strings carry their text. -/
inductive Value : Type
  | undefined : Value
  | null : Value
  | bool : Bool → Value
  | num : F → Value
  | str : String → Value
  | obj : Nat → Value
  deriving DecidableEq, Repr

/-- `Value::is_primitive`: everything except an object reference. -/
def Value.isPrimitive : Value → Bool
  | .obj _ => false
  | _ => true

/-- Hex digit table of the `0x` branch of `Value::primitive_as_number`
(`value.rs` lines 154-172): the byte match returning 0-15, or NaN
(modelled as `none`) on any other byte. -/
def hexDigitVal (c : Char) : Option Nat :=
  if '0' ≤ c ∧ c ≤ '9' then some (c.toNat - '0'.toNat)
  else if 'a' ≤ c ∧ c ≤ 'f' then some (c.toNat - 'a'.toNat + 10)
  else if 'A' ≤ c ∧ c ≤ 'F' then some (c.toNat - 'A'.toNat + 10)
  else none

/-- The hex accumulation loop of `primitive_as_number`:
`n = n.wrapping_shl(4); n |= digit` over a `u32` accumulator, with an early
NaN return (`none`) on a non-hex character. -/
def hexLoop : List Char → Nat → Option Nat
  | [], n => some n
  | c :: rest, n =>
    match hexDigitVal c with
    | some d => hexLoop rest (((n <<< 4) % 2 ^ 32) ||| d)
    | none => none

/-- Reinterpret a `u32` value as an `i32` (the `n as i32` cast), then as an
exact double (`f64::from`). -/
def u32AsI32 (n : Nat) : ℚ :=
  if n < 2 ^ 31 then (n : ℚ) else (n : ℚ) - 2 ^ 32

/-- `v.starts_with("0x")` (case-sensitive, as in the source). -/
def hexStart : List Char → Bool
  | '0' :: 'x' :: _ => true
  | _ => false

/-- `v.starts_with('0') || v.starts_with("+0") || v.starts_with("-0")`. -/
def octalStart : List Char → Bool
  | '0' :: _ => true
  | '+' :: '0' :: _ => true
  | '-' :: '0' :: _ => true
  | _ => false

/-- `c >= b'0' && c <= b'7'`. -/
def isOctalDigit (c : Char) : Bool :=
  decide ('0' ≤ c) && decide (c ≤ '7')

/-- The octal-branch guard of `primitive_as_number`: leading `0` (possibly
signed) and every byte of `v[1..]` an octal digit. -/
def octalGuard (cs : List Char) : Bool :=
  octalStart cs && (cs.drop 1).all isOctalDigit

/-- `v.trim_start_matches(|c| c == '+' || c == '-')`. -/
def trimSigns : List Char → List Char
  | [] => []
  | c :: rest => if c = '+' ∨ c = '-' then trimSigns rest else c :: rest

/-- The octal accumulation loop: `n = n.wrapping_shl(3); n |= (c - b'0')`
over a `u32` accumulator. -/
def octalAcc : List Char → Nat → Nat
  | [], n => n
  | c :: rest, n => octalAcc rest (((n <<< 3) % 2 ^ 32) ||| (c.toNat - '0'.toNat))

/-- `v.starts_with('-')`. -/
def startsWithMinus : List Char → Bool
  | '-' :: _ => true
  | _ => false

/-- The whole octal branch of `primitive_as_number` (`value.rs` lines
176-190): trim signs, accumulate octal digits, `wrapping_neg` on a leading
minus, reinterpret as `i32`. -/
def octalValue (cs : List Char) : F :=
  let trimmed := trimSigns cs
  let n := octalAcc trimmed 0
  let n2 := if startsWithMinus cs then (2 ^ 32 - n) % 2 ^ 32 else n
  F.rat (u32AsI32 n2)

/-- `v.trim_start_matches(|c| c == '\t' || c == '\n' || c == '\r' || c == ' ')`. -/
def trimLeadingWs : List Char → List Char
  | [] => []
  | c :: rest =>
    if c = '\t' ∨ c = '\n' ∨ c = '\r' ∨ c = ' ' then trimLeadingWs rest else c :: rest

/-- `v.strip_prefix(['+', '-'].as_ref()).unwrap_or(v)`: drop one leading
sign character if present. -/
def stripOneSign : List Char → List Char
  | [] => []
  | c :: rest => if c = '+' ∨ c = '-' then rest else c :: rest

/-- `.starts_with(['i', 'I'].as_ref())`. -/
def startsWithI : List Char → Bool
  | c :: _ => c = 'i' ∨ c = 'I'
  | [] => false

/-- Lower-case a character list (for the case-insensitive keywords of the
standard library float grammar). -/
def toLowerList (cs : List Char) : List Char := cs.map Char.toLower

/-- Decimal digit value. -/
def digitVal (c : Char) : Option Nat :=
  if '0' ≤ c ∧ c ≤ '9' then some (c.toNat - '0'.toNat) else none

/-- Split a longest run of decimal digits off the front of a character
list. -/
def splitDigits : List Char → List Nat × List Char
  | [] => ([], [])
  | c :: rest =>
    match digitVal c with
    | some d =>
      let p := splitDigits rest
      (d :: p.1, p.2)
    | none => ([], c :: rest)

/-- Interpret a run of decimal digits as a natural number. -/
def digitsToNat (ds : List Nat) : Nat := ds.foldl (fun n d => n * 10 + d) 0

/-- Mantissa of the float grammar: `Digits ['.' Digits?]` or `'.' Digits`,
with at least one digit overall. -/
def parseMantissa (cs : List Char) : Option (ℚ × List Char) :=
  let p := splitDigits cs
  match p.2 with
  | '.' :: rest2 =>
    let q := splitDigits rest2
    if p.1.isEmpty && q.1.isEmpty then none
    else some ((digitsToNat p.1 : ℚ) + (digitsToNat q.1 : ℚ) / (10 ^ q.1.length : ℚ), q.2)
  | _ => if p.1.isEmpty then none else some ((digitsToNat p.1 : ℚ), p.2)

/-- Package a parsed magnitude with its sign, mapping zero to the correctly
signed IEEE zero. -/
def F.ofSignMag (neg : Bool) (q : ℚ) : F :=
  if q = 0 then (if neg then F.negZero else F.rat 0)
  else F.rat (if neg then -q else q)

/-- Modelled from the Rust standard library (external to this repository):
the `f64::from_str` grammar — optional sign, then `inf`/`infinity`/`nan`
(case-insensitive) or a decimal mantissa with an optional `e`/`E` exponent.
Values are computed exactly as rationals; rounding and overflow-to-infinity
are not modelled because no claim depends on them (the claims only use this
parser on strings that either fail to parse or denote small integers). -/
def rustParseF64 (cs0 : List Char) : Option F :=
  let sp : Bool × List Char :=
    match cs0 with
    | '+' :: r => (false, r)
    | '-' :: r => (true, r)
    | r => (false, r)
  let neg := sp.1
  let cs1 := sp.2
  let low := toLowerList cs1
  if low = ['i', 'n', 'f'] ∨ low = ['i', 'n', 'f', 'i', 'n', 'i', 't', 'y'] then
    some (if neg then F.negInf else F.posInf)
  else if low = ['n', 'a', 'n'] then some F.nan
  else
    match parseMantissa cs1 with
    | none => none
    | some (m, rest) =>
      match rest with
      | [] => some (F.ofSignMag neg m)
      | c :: rest2 =>
        if c = 'e' ∨ c = 'E' then
          let ep : Bool × List Char :=
            match rest2 with
            | '+' :: r => (false, r)
            | '-' :: r => (true, r)
            | r => (false, r)
          let q := splitDigits ep.2
          if q.1.isEmpty ∨ q.2 ≠ [] then none
          else
            some (F.ofSignMag neg
              (m * (10 : ℚ) ^ (if ep.1 then -(digitsToNat q.1 : ℤ) else (digitsToNat q.1 : ℤ))))
        else none

/-- The version gate of the hex/octal string forms in
`primitive_as_number`: `activation.swf_version() >= 6`. -/
def hexLiteralThreshold : Nat := 6

/-- The version gate of the `undefined`/`null` numeric coercion in
`primitive_as_number`: `activation.swf_version() < 7` yields `0.0`. -/
def legacyArithmeticThreshold : Nat := 7

/-- The `Value::String` arm of `Value::primitive_as_number` (`value.rs`
lines 149-207): version-gated hex and octal forms, the empty string, the
`inf` guard, then the standard library decimal parse with NaN on failure. -/
def stringAsNumber (ver : Nat) (cs : List Char) : F :=
  if decide (hexLiteralThreshold ≤ ver) && hexStart cs then
    match hexLoop (cs.drop 2) 0 with
    | some n => F.rat (u32AsI32 n)
    | none => F.nan
  else if decide (hexLiteralThreshold ≤ ver) && octalGuard cs then
    octalValue cs
  else if cs = [] then F.nan
  else if startsWithI (stripOneSign cs) then F.nan
  else
    match rustParseF64 (trimLeadingWs cs) with
    | some x => x
    | none => F.nan

/-- `Value::primitive_as_number` (`value.rs` lines 140-210).  `ver` is
`activation.swf_version()`. -/
def primitiveAsNumber (ver : Nat) (v : Value) : F :=
  match v with
  | .undefined => if ver < legacyArithmeticThreshold then F.rat 0 else F.nan
  | .null => if ver < legacyArithmeticThreshold then F.rat 0 else F.nan
  | .bool false => F.rat 0
  | .bool true => F.rat 1
  | .num x => x
  | .str s => stringAsNumber ver s.data
  | .obj _ => F.nan

/-- Modelled from the spec: the two-tier error type of §7 (`error.rs` is
not under `src/`): thrown script values propagate, the prototype recursion
limit is a hard error, and other internal failures are non-thrown soft
errors. -/
inductive Err : Type
  | thrownValue : Value → Err
  | protoRecursionLimit : Err
  | internal : Err
  deriving DecidableEq, Repr

/-- The ambient context a coercion runs in: the dialect version, the id of
the global object (for the `null == globalObject` special case of
`abstract_eq`), and the behavior of `valueOf` on each object
(`object.call_method("valueOf", 0, &[], activation)`), modelled as a pure
function per the claims' hypotheses. -/
structure CoercionEnv : Type where
  swfVersion : Nat
  globalId : Nat
  valueOf : Nat → Except Err Value

/-- `Value::to_primitive_num`: objects call `valueOf`, primitives pass
through. -/
def toPrimitiveNum (env : CoercionEnv) (v : Value) : Except Err Value :=
  match v with
  | .obj id => env.valueOf id
  | v => .ok v

/-- `Value::coerce_to_f64`: objects go through `to_primitive_num` first,
then everything runs through `primitive_as_number`. -/
def coerceToF64 (env : CoercionEnv) (v : Value) : Except Err F :=
  match v with
  | .obj id =>
    match env.valueOf id with
    | .ok p => .ok (primitiveAsNumber env.swfVersion p)
    | .error e => .error e
  | v => .ok (primitiveAsNumber env.swfVersion v)

/-- A sample coercion environment used by concrete witnesses. -/
def sampleEnv (ver : Nat) : CoercionEnv :=
  { swfVersion := ver, globalId := 0, valueOf := fun _ => Except.ok Value.undefined }

/-- C3 (counterexample) — the claim as stated is false: no version
threshold can both separate the 0.0/NaN coercion of `undefined`/`null` and
be strictly lower than the hex-literal threshold, because the separation
forces the threshold to be 7 while the hex gate is at 6. -/
theorem no_legacy_threshold_below_hex :
    ¬ ∃ T : Nat,
      (∀ env : CoercionEnv, env.swfVersion < T →
        coerceToF64 env Value.undefined = Except.ok (F.rat 0) ∧
        coerceToF64 env Value.null = Except.ok (F.rat 0)) ∧
      (∀ env : CoercionEnv, T ≤ env.swfVersion →
        coerceToF64 env Value.undefined = Except.ok F.nan ∧
        coerceToF64 env Value.null = Except.ok F.nan) ∧
      T < hexLiteralThreshold := by
  rintro ⟨T, h0, hnan, hlt⟩
  have hT6 : T ≤ 6 := Nat.le_of_lt hlt
  have h := (hnan (sampleEnv 6) hT6).1
  simp [coerceToF64, sampleEnv, primitiveAsNumber, legacyArithmeticThreshold] at h

/-- C3 (amended) — there is a version threshold (7, the legacy-arithmetic
threshold) below which numeric coercion of `undefined` and `null` yields
0.0 and at/above which it yields NaN; this threshold is strictly GREATER
than the hex-literal threshold (6), not lower as the claim stated. -/
theorem legacy_arithmetic_threshold_spec :
    (∀ env : CoercionEnv, env.swfVersion < legacyArithmeticThreshold →
      coerceToF64 env Value.undefined = Except.ok (F.rat 0) ∧
      coerceToF64 env Value.null = Except.ok (F.rat 0)) ∧
    (∀ env : CoercionEnv, legacyArithmeticThreshold ≤ env.swfVersion →
      coerceToF64 env Value.undefined = Except.ok F.nan ∧
      coerceToF64 env Value.null = Except.ok F.nan) ∧
    hexLiteralThreshold < legacyArithmeticThreshold := by
  refine ⟨fun env h => ?_, fun env h => ?_, by decide⟩
  · simp [coerceToF64, primitiveAsNumber, h]
  · have h7 : ¬ env.swfVersion < legacyArithmeticThreshold := Nat.not_lt.mpr h
    simp [coerceToF64, primitiveAsNumber, h7]

/-- Witness for the amended C3, at versions 6 and 7. -/
theorem legacy_arithmetic_threshold_witness :
    coerceToF64 (sampleEnv 6) Value.undefined = Except.ok (F.rat 0) ∧
    coerceToF64 (sampleEnv 7) Value.undefined = Except.ok F.nan :=
  ⟨(legacy_arithmetic_threshold_spec.1 (sampleEnv 6) (by decide)).1,
   (legacy_arithmetic_threshold_spec.2.1 (sampleEnv 7) (by decide)).1⟩

/-- C4 — at every dialect version at or above the hex-literal threshold
(6), numeric coercion of the string `"0xFF"` yields exactly 255.0;
strictly below the threshold the string goes down the plain decimal path
and yields NaN.  The boundary is exactly at version 6. -/
theorem hex_literal_threshold_spec :
    (∀ env : CoercionEnv, hexLiteralThreshold ≤ env.swfVersion →
      coerceToF64 env (Value.str "0xFF") = Except.ok (F.rat 255)) ∧
    (∀ env : CoercionEnv, env.swfVersion < hexLiteralThreshold →
      coerceToF64 env (Value.str "0xFF") = Except.ok F.nan) := by
  constructor
  · intro env h
    have h6 : decide (hexLiteralThreshold ≤ env.swfVersion) = true := decide_eq_true h
    simp only [coerceToF64, primitiveAsNumber, stringAsNumber, h6]
    norm_num [hexStart, hexLoop, hexDigitVal, u32AsI32]
    decide
  · intro env h
    have h6 : decide (hexLiteralThreshold ≤ env.swfVersion) = false :=
      decide_eq_false (Nat.not_le.mpr h)
    simp only [coerceToF64, primitiveAsNumber, stringAsNumber, h6, Bool.false_and,
      if_neg Bool.false_ne_true]
    rfl

/-- Witness for C4, at versions 6 and 5. -/
theorem hex_literal_threshold_witness :
    coerceToF64 (sampleEnv 6) (Value.str "0xFF") = Except.ok (F.rat 255) ∧
    coerceToF64 (sampleEnv 5) (Value.str "0xFF") = Except.ok F.nan :=
  ⟨hex_literal_threshold_spec.1 (sampleEnv 6) (by decide),
   hex_literal_threshold_spec.2 (sampleEnv 5) (by decide)⟩

/-- `Value::abstract_eq` (`value.rs` lines 287-372), with the match arms in
source order.  The function recurses after coercing an operand, so it is
given explicit fuel; `none` means the fuel ran out (every actual run
terminates, and the theorems below quantify over all fuel).  The `coerced`
flag is the source's flag distinguishing a direct top-level comparison
from an intermediate comparison on already-coerced operands. -/
def abstractEq (env : CoercionEnv) : Nat → Value → Value → Bool → Option (Except Err Value)
  | 0, _, _, _ => none
  | fuel + 1, a, b, coerced =>
    match a, b with
    | .undefined, .undefined => some (.ok (.bool true))
    | .null, .null => some (.ok (.bool true))
    | .num x, .num y =>
      if !coerced && x.isNaN && y.isNaN then some (.ok (.bool true))
      else if x.ieeeEq y then some (.ok (.bool true))
      else if (x.ieeeEq (F.rat 0) && y.ieeeEq F.negZero)
          || (x.ieeeEq F.negZero && y.ieeeEq (F.rat 0)) then some (.ok (.bool true))
      else some (.ok (.bool false))
    | .str s1, .str s2 => some (.ok (.bool (decide (s1 = s2))))
    | .bool b1, .bool b2 => some (.ok (.bool (decide (b1 = b2))))
    | .obj i, .obj j => some (.ok (.bool (decide (i = j))))
    | .obj i, .undefined => some (.ok (.bool (decide (i = env.globalId))))
    | .obj i, .null => some (.ok (.bool (decide (i = env.globalId))))
    | .undefined, .obj j => some (.ok (.bool (decide (j = env.globalId))))
    | .null, .obj j => some (.ok (.bool (decide (j = env.globalId))))
    | .undefined, .null => some (.ok (.bool true))
    | .null, .undefined => some (.ok (.bool true))
    | .num _, .str _ =>
      match coerceToF64 env b with
      | .error e => some (.error e)
      | .ok y => abstractEq env fuel a (.num y) true
    | .str _, .num _ =>
      match coerceToF64 env a with
      | .error e => some (.error e)
      | .ok x => abstractEq env fuel (.num x) b true
    | .bool _, _ =>
      match coerceToF64 env a with
      | .error e => some (.error e)
      | .ok x => abstractEq env fuel (.num x) b true
    | _, .bool _ =>
      match coerceToF64 env b with
      | .error e => some (.error e)
      | .ok y => abstractEq env fuel a (.num y) true
    | .str _, .obj _ =>
      match toPrimitiveNum env b with
      | .error e => some (.error e)
      | .ok p =>
        if !p.isPrimitive then some (.ok (.bool false))
        else abstractEq env fuel a p true
    | .num _, .obj _ =>
      match toPrimitiveNum env b with
      | .error e => some (.error e)
      | .ok p =>
        if !p.isPrimitive then some (.ok (.bool false))
        else abstractEq env fuel a p true
    | .obj _, .str _ =>
      match toPrimitiveNum env a with
      | .error e => some (.error e)
      | .ok p =>
        if !p.isPrimitive then some (.ok (.bool false))
        else abstractEq env fuel p b true
    | .obj _, .num _ =>
      match toPrimitiveNum env a with
      | .error e => some (.error e)
      | .ok p =>
        if !p.isPrimitive then some (.ok (.bool false))
        else abstractEq env fuel p b true
    | _, _ => some (.ok (.bool false))

/-- IEEE equality on the double model is symmetric. -/
theorem F.ieeeEq_comm (x y : F) : x.ieeeEq y = y.ieeeEq x := by
  cases x <;> cases y <;> simp [F.ieeeEq, eq_comm]

/-- Decidable equality tests are symmetric. -/
theorem decideEqComm {α : Type} [DecidableEq α] (a b : α) :
    decide (a = b) = decide (b = a) :=
  decide_eq_decide.mpr eq_comm

/-- The `(Number, Number)` arm of `abstract_eq` is symmetric. -/
theorem absEqNumNumSymm (env : CoercionEnv) (n : Nat) (x y : F) (c : Bool) :
    abstractEq env (n + 1) (.num x) (.num y) c
      = abstractEq env (n + 1) (.num y) (.num x) c := by
  show (if !c && x.isNaN && y.isNaN then some (Except.ok (Value.bool true))
        else if x.ieeeEq y then some (Except.ok (Value.bool true))
        else if (x.ieeeEq (F.rat 0) && y.ieeeEq F.negZero)
            || (x.ieeeEq F.negZero && y.ieeeEq (F.rat 0)) then some (Except.ok (Value.bool true))
        else some (Except.ok (Value.bool false)))
      = (if !c && y.isNaN && x.isNaN then some (Except.ok (Value.bool true))
        else if y.ieeeEq x then some (Except.ok (Value.bool true))
        else if (y.ieeeEq (F.rat 0) && x.ieeeEq F.negZero)
            || (y.ieeeEq F.negZero && x.ieeeEq (F.rat 0)) then some (Except.ok (Value.bool true))
        else some (Except.ok (Value.bool false)))
  rw [F.ieeeEq_comm y x]
  cases c <;> cases hx : x.isNaN <;> cases hy : y.isNaN <;> cases h1 : x.ieeeEq y <;>
    simp [hx, hy, h1, Bool.or_comm, Bool.and_comm]

/-- C5 — abstract equality is symmetric: under any coercion environment
(with `valueOf` behaving as a pure function), for every pair of values,
every fuel and either value of the `coerced` flag, `abstract_eq(a, b)` and
`abstract_eq(b, a)` agree. -/
theorem abstractEq_symm (env : CoercionEnv) :
    ∀ (fuel : Nat) (a b : Value) (coerced : Bool),
      abstractEq env fuel a b coerced = abstractEq env fuel b a coerced := by
  intro fuel
  induction fuel with
  | zero => intro a b c; rfl
  | succ n ih =>
    intro a b c
    cases a with
    | undefined =>
      cases b with
      | undefined => rfl
      | null => rfl
      | bool b2 => exact ih _ _ _
      | num y => rfl
      | str s2 => rfl
      | obj j => rfl
    | null =>
      cases b with
      | undefined => rfl
      | null => rfl
      | bool b2 => exact ih _ _ _
      | num y => rfl
      | str s2 => rfl
      | obj j => rfl
    | bool b1 =>
      cases b with
      | undefined => exact ih _ _ _
      | null => exact ih _ _ _
      | bool b2 =>
        show some (Except.ok (Value.bool (decide (b1 = b2))))
            = some (Except.ok (Value.bool (decide (b2 = b1))))
        rw [decideEqComm]
      | num y => exact ih _ _ _
      | str s2 => exact ih _ _ _
      | obj j => exact ih _ _ _
    | num x =>
      cases b with
      | undefined => rfl
      | null => rfl
      | bool b2 => exact ih _ _ _
      | num y => exact absEqNumNumSymm env n x y c
      | str s2 => exact ih _ _ _
      | obj j =>
        show (match env.valueOf j with
              | .error e => some (Except.error e)
              | .ok p =>
                if !p.isPrimitive then some (Except.ok (Value.bool false))
                else abstractEq env n (.num x) p true)
            = (match env.valueOf j with
              | .error e => some (Except.error e)
              | .ok p =>
                if !p.isPrimitive then some (Except.ok (Value.bool false))
                else abstractEq env n p (.num x) true)
        cases env.valueOf j with
        | error e => rfl
        | ok p =>
          cases p with
          | obj k => rfl
          | undefined => exact ih _ _ _
          | null => exact ih _ _ _
          | bool bb => exact ih _ _ _
          | num xx => exact ih _ _ _
          | str ss => exact ih _ _ _
    | str s1 =>
      cases b with
      | undefined => rfl
      | null => rfl
      | bool b2 => exact ih _ _ _
      | num y => exact ih _ _ _
      | str s2 =>
        show some (Except.ok (Value.bool (decide (s1 = s2))))
            = some (Except.ok (Value.bool (decide (s2 = s1))))
        rw [decideEqComm]
      | obj j =>
        show (match env.valueOf j with
              | .error e => some (Except.error e)
              | .ok p =>
                if !p.isPrimitive then some (Except.ok (Value.bool false))
                else abstractEq env n (.str s1) p true)
            = (match env.valueOf j with
              | .error e => some (Except.error e)
              | .ok p =>
                if !p.isPrimitive then some (Except.ok (Value.bool false))
                else abstractEq env n p (.str s1) true)
        cases env.valueOf j with
        | error e => rfl
        | ok p =>
          cases p with
          | obj k => rfl
          | undefined => exact ih _ _ _
          | null => exact ih _ _ _
          | bool bb => exact ih _ _ _
          | num xx => exact ih _ _ _
          | str ss => exact ih _ _ _
    | obj i =>
      cases b with
      | undefined => rfl
      | null => rfl
      | bool b2 => exact ih _ _ _
      | num y =>
        show (match env.valueOf i with
              | .error e => some (Except.error e)
              | .ok p =>
                if !p.isPrimitive then some (Except.ok (Value.bool false))
                else abstractEq env n p (.num y) true)
            = (match env.valueOf i with
              | .error e => some (Except.error e)
              | .ok p =>
                if !p.isPrimitive then some (Except.ok (Value.bool false))
                else abstractEq env n (.num y) p true)
        cases env.valueOf i with
        | error e => rfl
        | ok p =>
          cases p with
          | obj k => rfl
          | undefined => exact ih _ _ _
          | null => exact ih _ _ _
          | bool bb => exact ih _ _ _
          | num xx => exact ih _ _ _
          | str ss => exact ih _ _ _
      | str s2 =>
        show (match env.valueOf i with
              | .error e => some (Except.error e)
              | .ok p =>
                if !p.isPrimitive then some (Except.ok (Value.bool false))
                else abstractEq env n p (.str s2) true)
            = (match env.valueOf i with
              | .error e => some (Except.error e)
              | .ok p =>
                if !p.isPrimitive then some (Except.ok (Value.bool false))
                else abstractEq env n (.str s2) p true)
        cases env.valueOf i with
        | error e => rfl
        | ok p =>
          cases p with
          | obj k => rfl
          | undefined => exact ih _ _ _
          | null => exact ih _ _ _
          | bool bb => exact ih _ _ _
          | num xx => exact ih _ _ _
          | str ss => exact ih _ _ _
      | obj j =>
        show some (Except.ok (Value.bool (decide (i = j))))
            = some (Except.ok (Value.bool (decide (j = i))))
        rw [decideEqComm]

/-- C6 — NaN equality under `abstract_eq`: a direct (non-coerced)
comparison of two NaN numbers returns true (the legacy special case guarded
by `!coerced`), while an intermediate comparison with the coerced flag set
treats NaN per IEEE and returns false; in particular a top-level comparison
of a string that coerces to NaN against a NaN number goes through the
string-coercion arm, recurses with `coerced = true`, and yields false. -/
theorem abstractEq_nan_direct_vs_coerced (env : CoercionEnv) (fuel : Nat) :
    abstractEq env (fuel + 1) (.num F.nan) (.num F.nan) false
        = some (Except.ok (Value.bool true)) ∧
    abstractEq env (fuel + 1) (.num F.nan) (.num F.nan) true
        = some (Except.ok (Value.bool false)) ∧
    abstractEq (sampleEnv 7) (fuel + 2) (.str "a") (.num F.nan) false
        = some (Except.ok (Value.bool false)) :=
  ⟨rfl, rfl, rfl⟩

/-- The property attribute bitflags of `property.rs`: `DONT_ENUM`,
`DONT_DELETE`, `READ_ONLY`. -/
structure Attribute : Type where
  dontEnum : Bool
  dontDelete : Bool
  readOnly : Bool
  deriving DecidableEq, Repr

/-- `Attribute::empty()`. -/
def Attribute.empty : Attribute :=
  { dontEnum := false, dontDelete := false, readOnly := false }

/-- A property slot as used by `script_object.rs`: either stored data or a
virtual getter/setter pair (getter and setter are object ids of the
executable objects). -/
inductive Property : Type
  | Stored : Value → Attribute → Property
  | Virtual : Nat → Option Nat → Attribute → Property
  deriving DecidableEq, Repr

/-- `Property::attributes`. -/
def Property.attributes : Property → Attribute
  | .Stored _ a => a
  | .Virtual _ _ a => a

/-- `Property::is_enumerable`: the `DONT_ENUM` flag is not set. -/
def Property.isEnumerable (p : Property) : Bool :=
  !p.attributes.dontEnum

/-- `Property::is_virtual`. -/
def Property.isVirtual : Property → Bool
  | .Stored _ _ => false
  | .Virtual _ _ _ => true

/-- Case-insensitive string comparison, for pre-SWF7 identifier
resolution. -/
def strEqIgnoreCase (a b : String) : Bool :=
  decide (a.data.map Char.toLower = b.data.map Char.toLower)

/-- Resolution-time key comparison: exact when `cs` (case-sensitive) is
set, case-folded otherwise. -/
def keyMatches (cs : Bool) (k name : String) : Bool :=
  if cs then decide (k = name) else strEqIgnoreCase k name

/-- Modelled from the spec: `PropertyMap` (`property_map.rs` is not under
`src/`) — "an ordered associative container from string key to Property.
Case sensitivity is a resolution-time parameter (not a table property)
supplied by the calling context" whose "insertion order is preserved for
enumeration purposes" (§3).  Modelled as an insertion-ordered association
list. -/
abbrev PropertyMap (α : Type) : Type := List (String × α)

/-- `PropertyMap::get(name, case_sensitive)`. -/
def PropertyMap.get {α : Type} (m : PropertyMap α) (name : String) (cs : Bool) : Option α :=
  (m.find? (fun kv => keyMatches cs kv.1 name)).map (fun kv => kv.2)

/-- `PropertyMap::contains_key(name, case_sensitive)`. -/
def PropertyMap.containsKey {α : Type} (m : PropertyMap α) (name : String) (cs : Bool) : Bool :=
  m.any (fun kv => keyMatches cs kv.1 name)

/-- A property watcher (`script_object.rs`): callback object id plus user
data. -/
structure Watcher : Type where
  callback : Nat
  userData : Value
  deriving DecidableEq, Repr

/-- `ScriptObjectData` (`script_object.rs`): prototype value, property
table, interface list, `type_of` string, watcher table. -/
structure ScriptObjectData : Type where
  prototype : Value
  values : PropertyMap Property
  interfaces : List Nat
  typeOf : String
  watchers : PropertyMap Watcher
  deriving DecidableEq, Repr

/-- `SuperObjectData` (`super_object.rs`): the `this` object seen
throughout the super chain, and the proto the executing method was pulled
from. -/
structure SuperObjectData : Type where
  thisObj : Nat
  baseProto : Nat
  deriving DecidableEq, Repr

/-- An executable (getter/setter/method body), modelled as a pure function
of `this`, the super depth, and the arguments, per the claims'
hypotheses. -/
def ExecFn : Type := Nat → Nat → List Value → Except Err Value

/-- The GC heap: script objects, super proxies and executables by id, plus
the allocation cursor for fresh ids. -/
structure World : Type where
  objs : Nat → Option ScriptObjectData
  supers : Nat → Option SuperObjectData
  execs : Nat → Option ExecFn
  nextId : Nat

/-- `SuperObject::get_local` (`super_object.rs` lines 65-72): always
`Some(Ok(Value::Undefined))`, without touching the wrapped object. -/
def SuperObject.getLocal (_w : World) (_sid : Nat) (_name : String) (_thisId : Nat) :
    Option (Except Err Value) :=
  some (.ok .undefined)

/-- `SuperObject::set_local` (`super_object.rs` lines 74-84): the body is
`Ok(())` — no state is read or written. -/
def SuperObject.setLocal (w : World) (_sid : Nat) (_name : String) (_value : Value)
    (_thisId : Nat) (_baseProto : Option Nat) : World × Except Err Unit :=
  (w, .ok ())

/-- `SuperObject::define_value` (`super_object.rs` lines 159-167): empty
body — `super` cannot have values defined on it. -/
def SuperObject.defineValue (w : World) (_sid : Nat) (_name : String) (_value : Value)
    (_attributes : Attribute) : World :=
  w

/-- `SuperObject::add_property` (`super_object.rs` lines 179-188): empty
body. -/
def SuperObject.addProperty (w : World) (_sid : Nat) (_name : String) (_get : Nat)
    (_set : Option Nat) (_attributes : Attribute) : World :=
  w

/-- `SuperObject::set_watcher` (`super_object.rs` lines 201-209): empty
body. -/
def SuperObject.setWatcher (w : World) (_sid : Nat) (_name : String) (_callback : Nat)
    (_userData : Value) : World :=
  w

/-- C8 — the super proxy's mutators are guaranteed no-ops: for every
world, proxy, name and payload, `set_local` returns `Ok(())` and leaves the
world — hence the proxy's own state and the wrapped object's property
table, watchers and prototype — untouched, and `define_value`,
`add_property` and `set_watcher` likewise return the world unchanged; since
the world embeds every object and no executable is consulted, no setter or
watcher can have been invoked. -/
theorem super_mutators_noop (w : World) (sid : Nat) (name : String) (value : Value)
    (thisId : Nat) (baseProto : Option Nat) (attributes : Attribute) (get : Nat)
    (set : Option Nat) (callback : Nat) (userData : Value) :
    SuperObject.setLocal w sid name value thisId baseProto = (w, Except.ok ()) ∧
    SuperObject.defineValue w sid name value attributes = w ∧
    SuperObject.addProperty w sid name get set attributes = w ∧
    SuperObject.setWatcher w sid name callback userData = w :=
  ⟨rfl, rfl, rfl, rfl⟩

/-- C10 — a direct property read through the super proxy always yields
`Some(Ok(undefined))`, for every world (so the wrapped object and its
prototype chain are never consulted), every name and every `this`. -/
theorem super_getLocal_undefined (w : World) (sid : Nat) (name : String) (thisId : Nat) :
    SuperObject.getLocal w sid name thisId = some (Except.ok Value.undefined) :=
  rfl

/-- `ScriptObject::get_local` (`script_object.rs` lines 171-207): look the
name up in the own property table only; a stored slot returns its value, a
virtual slot invokes its getter (when the getter object is executable),
mapping a thrown error to itself and any other error to `Ok(undefined)`;
an absent slot, or a virtual slot whose getter is not executable, yields
`None` so the caller continues up the prototype chain. -/
def ScriptObject.getLocal (w : World) (cs : Bool) (oid : Nat) (name : String)
    (thisId : Nat) (depth : Nat) : Option (Except Err Value) :=
  match w.objs oid with
  | none => none
  | some od =>
    match od.values.get name cs with
    | some (.Virtual g _ _) =>
      match w.execs g with
      | some f =>
        some (match f thisId depth [] with
          | .ok v => .ok v
          | .error (.thrownValue e) => .error (.thrownValue e)
          | .error _ => .ok .undefined)
      | none => none
    | some (.Stored v _) => some (.ok v)
    | none => none

/-- C7 — getter error policy of `get_local`: when the virtual slot's
getter exists (is executable) and its invocation fails with a thrown
script value, `get_local` propagates exactly that thrown value; when it
fails with either non-thrown error kind, `get_local` swallows the failure
and returns `Ok(undefined)`. -/
theorem getLocal_getter_error_policy
    (w : World) (cs : Bool) (oid : Nat) (name : String) (thisId depth : Nat)
    (od : ScriptObjectData) (g : Nat) (so : Option Nat) (attrs : Attribute) (f : ExecFn)
    (hod : w.objs oid = some od)
    (hprop : od.values.get name cs = some (.Virtual g so attrs))
    (hexec : w.execs g = some f) :
    (∀ e, f thisId depth [] = .error (.thrownValue e) →
      ScriptObject.getLocal w cs oid name thisId depth
        = some (.error (.thrownValue e))) ∧
    (f thisId depth [] = .error .protoRecursionLimit →
      ScriptObject.getLocal w cs oid name thisId depth = some (.ok .undefined)) ∧
    (f thisId depth [] = .error .internal →
      ScriptObject.getLocal w cs oid name thisId depth = some (.ok .undefined)) := by
  refine ⟨fun e h => ?_, fun h => ?_, fun h => ?_⟩ <;>
    simp [ScriptObject.getLocal, hod, hprop, hexec, h]

/-- A concrete world for the C7 witness: object 0 has two virtual
properties, one whose getter fails with an internal (non-thrown) error and
one whose getter throws a script value. -/
def getterWorld : World :=
  { objs := fun i =>
      if i = 0 then
        some { prototype := .undefined,
               values := [("v", .Virtual 5 none Attribute.empty),
                          ("t", .Virtual 6 none Attribute.empty)],
               interfaces := [], typeOf := "object", watchers := [] }
      else none,
    supers := fun _ => none,
    execs := fun i =>
      if i = 5 then some (fun _ _ _ => .error .internal)
      else if i = 6 then some (fun _ _ _ => .error (.thrownValue (.str "boom")))
      else none,
    nextId := 7 }

/-- Witness for C7: in `getterWorld`, reading the internal-error getter
yields `Ok(undefined)` and reading the throwing getter propagates the
thrown value. -/
theorem getLocal_getter_error_policy_witness :
    ScriptObject.getLocal getterWorld true 0 "v" 0 0 = some (Except.ok Value.undefined) ∧
    ScriptObject.getLocal getterWorld true 0 "t" 0 0
      = some (Except.error (Err.thrownValue (Value.str "boom"))) :=
  ⟨(getLocal_getter_error_policy getterWorld true 0 "v" 0 0 _ 5 none Attribute.empty _
      rfl rfl rfl).2.2 rfl,
   (getLocal_getter_error_policy getterWorld true 0 "t" 0 0 _ 6 none Attribute.empty _
      rfl rfl rfl).1 (Value.str "boom") rfl⟩

/-- The own-keys half of `ScriptObject::get_keys`: the enumerable keys of
a property table, in insertion order. -/
def enumOwnKeys (m : PropertyMap Property) : List String :=
  m.filterMap (fun kv => if kv.2.isEnumerable then some kv.1 else none)

/-- `ScriptObject::get_keys` (`script_object.rs` lines 491-517): the
prototype's keys (recursively) first, dropping any key that exists at all
in the own table, then the own enumerable keys in insertion order.  The
prototype recursion is given explicit fuel. -/
def ScriptObject.getKeys (w : World) (cs : Bool) : Nat → Nat → List String
  | 0, _ => []
  | fuel + 1, oid =>
    match w.objs oid with
    | none => []
    | some od =>
      let protoKeys :=
        match od.prototype with
        | .obj p => ScriptObject.getKeys w cs fuel p
        | _ => []
      protoKeys.filter (fun k => !od.values.containsKey k cs) ++ enumOwnKeys od.values

/-- C2 — enumeration order: for an object with an arbitrary own property
table whose prototype is an object with an arbitrary own table (and a
non-object prototype of its own), `get_keys` returns the prototype's
enumerable keys — minus every key that also exists as an own key, whether
or not that own key is enumerable — followed by the object's own
enumerable keys in insertion order. -/
theorem getKeys_succ (w : World) (cs : Bool) (fuel oid : Nat) (od : ScriptObjectData)
    (hod : w.objs oid = some od) :
    ScriptObject.getKeys w cs (fuel + 1) oid
      = (match od.prototype with
         | .obj p => ScriptObject.getKeys w cs fuel p
         | _ => []).filter (fun k => !od.values.containsKey k cs)
        ++ enumOwnKeys od.values := by
  simp only [ScriptObject.getKeys, hod]

theorem getKeys_proto_first (w : World) (cs : Bool) (o p : Nat)
    (od pd : ScriptObjectData)
    (ho : w.objs o = some od) (hproto : od.prototype = .obj p)
    (hp : w.objs p = some pd) (hpd : ∀ q, pd.prototype ≠ Value.obj q) (fuel : Nat) :
    ScriptObject.getKeys w cs (fuel + 2) o
      = (enumOwnKeys pd.values).filter (fun k => !od.values.containsKey k cs)
        ++ enumOwnKeys od.values := by
  have hinner : ScriptObject.getKeys w cs (fuel + 1) p = enumOwnKeys pd.values := by
    rw [getKeys_succ w cs fuel p pd hp]
    cases hq : pd.prototype with
    | obj q => exact absurd hq (hpd q)
    | undefined => simp
    | null => simp
    | bool b => simp
    | num x => simp
    | str t => simp
  rw [getKeys_succ w cs (fuel + 1) o od ho, hproto]
  dsimp only
  rw [hinner]

/-- A concrete world for the C2 witness: object 0 has own keys `a`
(enumerable) and `b` (hidden), its prototype object 1 has own enumerable
key `c`. -/
def keysWorld : World :=
  { objs := fun i =>
      if i = 0 then
        some { prototype := .obj 1,
               values := [("a", .Stored (.str "A") Attribute.empty),
                          ("b", .Stored (.str "B")
                            { dontEnum := true, dontDelete := false, readOnly := false })],
               interfaces := [], typeOf := "object", watchers := [] }
      else if i = 1 then
        some { prototype := .undefined,
               values := [("c", .Stored (.str "C") Attribute.empty)],
               interfaces := [], typeOf := "object", watchers := [] }
      else none,
    supers := fun _ => none,
    execs := fun _ => none,
    nextId := 2 }

/-- Witness for C2: the literal spec scenario, yielding exactly
`["c", "a"]`. -/
theorem getKeys_proto_first_witness :
    ScriptObject.getKeys keysWorld true 2 0 = ["c", "a"] :=
  (getKeys_proto_first keysWorld true 0 1 _ _ rfl rfl rfl
    (fun _ h => Value.noConfusion h) 0).trans rfl

/-- `ScriptObject::has_own_virtual` (`script_object.rs` lines 463-474):
the own slot exists and is virtual. -/
def hasOwnVirtualData (od : ScriptObjectData) (name : String) (cs : Bool) : Bool :=
  match od.values.get name cs with
  | some slot => slot.isVirtual
  | none => false

/-- `ScriptObject::has_own_property` (`script_object.rs` lines 453-461):
`__proto__` always exists; otherwise membership in the own table. -/
def hasOwnPropertyData (od : ScriptObjectData) (name : String) (cs : Bool) : Bool :=
  if name = "__proto__" then true else od.values.containsKey name cs

/-- Outcome of the virtual-setter walk inside `TObject::set`: either an
ancestor with an own virtual slot was found at some depth (the source then
invokes its setter and returns), or the chain ended at a non-object
prototype after some depth (the source then falls through to
`set_local`). -/
inductive SetWalkResult : Type
  | FoundVirtual : Nat → Nat → SetWalkResult
  | Finished : Nat → SetWalkResult
  deriving DecidableEq, Repr

/-- The setter-shadowing walk of `TObject::set` (`object.rs` lines
155-179): starting from `proto = Value::Object(this)` at depth 0, while
the current prototype is an object, stop at the first ancestor with an own
virtual slot for the name, otherwise step to its prototype and increment
`depth`.  The source loop has NO depth cap (the increment is followed only
by a `// TODO: max depth` comment), so the loop is given explicit fuel
here and `none` means it is still running when the fuel runs out.  (An id
not present in the world does not occur in the source and is treated as a
chain end.) -/
def setSetterWalk (w : World) (name : String) (cs : Bool) :
    Value → Nat → Nat → Option SetWalkResult
  | .obj _, _, 0 => none
  | .obj pid, depth, fuel + 1 =>
    match w.objs pid with
    | some od =>
      if hasOwnVirtualData od name cs then some (.FoundVirtual pid depth)
      else setSetterWalk w name cs od.prototype (depth + 1) fuel
    | none => some (.Finished depth)
  | _, depth, _ => some (.Finished depth)

/-- An object that is its own prototype and has no own properties. -/
def cyclicObjData : ScriptObjectData :=
  { prototype := .obj 0, values := [], interfaces := [], typeOf := "object", watchers := [] }

/-- A world whose only object, id 0, has a cyclic (self) prototype
chain. -/
def cyclicProtoWorld : World :=
  { objs := fun i => if i = 0 then some cyclicObjData else none,
    supers := fun _ => none, execs := fun _ => none, nextId := 1 }

/-- C1 (code divergence) — on a cyclic prototype chain the
virtual-setter walk of `TObject::set` never terminates: object 0 has no
own property named `n` (so `set("n", v)` does enter the walk), and for
every fuel bound and every starting depth the walk is still running —
there is no depth cap and no recursion-limit error in this loop, contrary
to the claim. -/
theorem set_setter_walk_diverges_on_cycle :
    (∀ cs : Bool, hasOwnPropertyData cyclicObjData "n" cs = false) ∧
    ∀ (cs : Bool) (depth fuel : Nat),
      setSetterWalk cyclicProtoWorld "n" cs (.obj 0) depth fuel = none := by
  constructor
  · intro cs; cases cs <;> rfl
  · intro cs depth fuel
    induction fuel generalizing depth with
    | zero => rfl
    | succ n ih => exact ih (depth + 1)

/-- `ScopeClass` (`scope.rs` lines 14-29). -/
inductive ScopeClass : Type
  | Global : ScopeClass
  | Target : ScopeClass
  | Local : ScopeClass
  | With : ScopeClass
  deriving DecidableEq, Repr

/-- One link of a scope chain: its class and the id of its locals object.
A chain is the list of links obtained by following `parent` from the
innermost scope outward. -/
structure ScopeLink : Type where
  cls : ScopeClass
  values : Nat
  deriving DecidableEq, Repr

/-- The loop of `Scope::new_closure_scope` (`scope.rs` lines 72-100):
walking outward, every non-With link is re-allocated as a fresh cell (a
fresh list node here) with the same class and the same locals object
reference, and chained as the parent of the previously emitted cell, so
the surviving links keep their original relative order. -/
def closureFilterLoop : List ScopeLink → List ScopeLink
  | [] => []
  | l :: rest =>
    if l.cls = ScopeClass.With then closureFilterLoop rest
    else { cls := l.cls, values := l.values } :: closureFilterLoop rest

/-- `ScriptObject::bare_object` / `ScriptObject::object(mc, None)`: a
fresh object with no values and an undefined prototype. -/
def bareObjectData : ScriptObjectData :=
  { prototype := .undefined, values := [], interfaces := [], typeOf := "object", watchers := [] }

/-- Allocate an object at the next fresh id. -/
def allocObject (w : World) (od : ScriptObjectData) : World × Nat :=
  ({ objs := fun i => if i = w.nextId then some od else w.objs i,
     supers := w.supers, execs := w.execs, nextId := w.nextId + 1 }, w.nextId)

/-- `Scope::new_closure_scope` (`scope.rs` lines 65-112): run the
filtering loop; if no link survived (`bottom_scope` is `None`), fall back
to a single Global-class scope over a freshly allocated bare object. -/
def newClosureScope (w : World) (chain : List ScopeLink) : World × List ScopeLink :=
  match closureFilterLoop chain with
  | [] =>
    let a := allocObject w bareObjectData
    (a.1, [{ cls := ScopeClass.Global, values := a.2 }])
  | links => (w, links)

/-- C9 — closure-scope derivation: the loop keeps exactly the non-With
links in their original relative order, each surviving link carrying the
same locals object reference (so the derived chain is the `filter` of the
original); when at least one link survives, `new_closure_scope` returns
exactly that filtered chain with the heap untouched; when every link was a
With link, it returns a single Global-class scope over a freshly
allocated empty bare object. -/
theorem newClosureScope_spec (w : World) (chain : List ScopeLink) :
    closureFilterLoop chain = chain.filter (fun l => decide (l.cls ≠ ScopeClass.With)) ∧
    (chain.filter (fun l => decide (l.cls ≠ ScopeClass.With)) ≠ [] →
      newClosureScope w chain
        = (w, chain.filter (fun l => decide (l.cls ≠ ScopeClass.With)))) ∧
    ((∀ l ∈ chain, l.cls = ScopeClass.With) →
      (newClosureScope w chain).2 = [{ cls := ScopeClass.Global, values := w.nextId }] ∧
      (newClosureScope w chain).1.objs w.nextId = some bareObjectData) := by
  have hfilter : closureFilterLoop chain
      = chain.filter (fun l => decide (l.cls ≠ ScopeClass.With)) := by
    induction chain with
    | nil => rfl
    | cons l rest ih =>
      by_cases h : l.cls = ScopeClass.With <;>
        simp [closureFilterLoop, List.filter_cons, h, ih]
  refine ⟨hfilter, fun hne => ?_, fun hall => ?_⟩
  · obtain ⟨x, xs, hx⟩ : ∃ x xs,
        chain.filter (fun l => decide (l.cls ≠ ScopeClass.With)) = x :: xs := by
      cases hc : chain.filter (fun l => decide (l.cls ≠ ScopeClass.With)) with
      | nil => exact absurd hc hne
      | cons x xs => exact ⟨x, xs, rfl⟩
    simp only [newClosureScope, hfilter, hx]
  · have hnil : chain.filter (fun l => decide (l.cls ≠ ScopeClass.With)) = [] := by
      simp only [List.filter_eq_nil_iff]
      intro l hl
      simp [hall l hl]
    simp only [newClosureScope, hfilter, hnil]
    exact ⟨rfl, by simp [allocObject]⟩

/-- A world with nothing allocated, for the C9 witness. -/
def emptyWorld : World :=
  { objs := fun _ => none, supers := fun _ => none, execs := fun _ => none, nextId := 0 }

/-- Witness for C9: the chain `[with(10), local(11), target(12)]` derives
to `[local(11), target(12)]` with the locals object ids preserved and the
heap untouched. -/
theorem newClosureScope_witness :
    newClosureScope emptyWorld
        [{ cls := ScopeClass.With, values := 10 }, { cls := ScopeClass.Local, values := 11 },
         { cls := ScopeClass.Target, values := 12 }]
      = (emptyWorld,
         [{ cls := ScopeClass.Local, values := 11 },
          { cls := ScopeClass.Target, values := 12 }]) :=
  ((newClosureScope_spec emptyWorld
      [{ cls := ScopeClass.With, values := 10 }, { cls := ScopeClass.Local, values := 11 },
       { cls := ScopeClass.Target, values := 12 }]).2.1 (by decide)).trans rfl

end Ruffle
